import Mathlib

/-!
Verification of the student-data API client (two Python modules:
`checksum.py` and `api.py`) against its natural-language specification.

Strings are modelled as `List Char` (Python `str`), byte strings as
`List Nat` with every element `< 256`.  Machine words in SHA-1 are `Nat`
with explicit reduction `% 2^32`.  Environment variables (`os.getenv`)
are `Option (List Char)` (`none` = unset).  Exceptions are modelled with
`Except (List Char) _`, the payload being the Python exception message.
-/

set_option maxRecDepth 100000

namespace StudentAPI

/-! ## Byte-level primitives: SHA-1, HMAC, base64, UTF-8

`checksum.py` delegates to `hashlib.sha1`, `hmac.new` and
`base64.b64encode`; these library functions are embedded in full below so
that the signing pipeline is modelled down to the bytes. -/

/-- 2^32, the modulus for SHA-1 word arithmetic. -/
def w32 : Nat := 4294967296

/-- Left-rotation of a 32-bit word (input assumed `< 2^32`). -/
def rotl (n x : Nat) : Nat :=
  ((x <<< n) ||| (x >>> (32 - n))) % w32

/-- Bitwise complement of a 32-bit word. -/
def not32 (x : Nat) : Nat := x ^^^ 4294967295

/-- Big-endian byte rendering of `x` in `n` bytes. -/
def beBytes (n x : Nat) : List Nat :=
  (List.range n).reverse.map fun i => (x >>> (8 * i)) % 256

/-- Group a byte list into big-endian 32-bit words (remainder dropped;
SHA-1 only applies this to 64-byte blocks). -/
def wordsOfBytes : List Nat → List Nat
  | a :: b :: c :: d :: rest =>
      (a * 16777216 + b * 65536 + c * 256 + d) :: wordsOfBytes rest
  | _ => []

/-- SHA-1 message schedule: extend the 16 block words by `fuel` more words. -/
def sha1Extend : Nat → List Nat → List Nat
  | 0, ws => ws
  | fuel + 1, ws =>
      sha1Extend fuel (ws ++ [rotl 1
        ((ws.getD (ws.length - 3) 0) ^^^ (ws.getD (ws.length - 8) 0) ^^^
         (ws.getD (ws.length - 14) 0) ^^^ (ws.getD (ws.length - 16) 0))])

/-- One SHA-1 compression round. -/
def sha1Round (st : Nat × Nat × Nat × Nat × Nat) (iw : Nat × Nat) :
    Nat × Nat × Nat × Nat × Nat :=
  let (a, b, c, d, e) := st
  let (i, w) := iw
  let f :=
    if i < 20 then (b &&& c) ||| ((not32 b) &&& d)
    else if i < 40 then b ^^^ c ^^^ d
    else if i < 60 then (b &&& c) ||| (b &&& d) ||| (c &&& d)
    else b ^^^ c ^^^ d
  let k :=
    if i < 20 then 1518500249
    else if i < 40 then 1859775393
    else if i < 60 then 2400959708
    else 3395469782
  let temp := (rotl 5 a + f + e + k + w) % w32
  (temp, a, rotl 30 b, c, d)

/-- Process one 64-byte block of the SHA-1 input. -/
def sha1Block (h : Nat × Nat × Nat × Nat × Nat) (block : List Nat) :
    Nat × Nat × Nat × Nat × Nat :=
  let ws := sha1Extend 64 (wordsOfBytes block)
  let (h0, h1, h2, h3, h4) := h
  let (a, b, c, d, e) := ws.enum.foldl sha1Round h
  ((h0 + a) % w32, (h1 + b) % w32, (h2 + c) % w32, (h3 + d) % w32,
   (h4 + e) % w32)

/-- Split a list into 64-byte blocks (fuelled structural recursion so
the definition reduces; the fuel in `toBlocks` always suffices). -/
def toBlocksAux : Nat → List Nat → List (List Nat)
  | 0, _ => []
  | fuel + 1, l => if l.isEmpty then [] else l.take 64 :: toBlocksAux fuel (l.drop 64)

/-- Split a list into 64-byte blocks. -/
def toBlocks (l : List Nat) : List (List Nat) := toBlocksAux (l.length + 1) l

/-- SHA-1 padding: append `0x80`, zero bytes to 56 mod 64, then the
bit length as 8 big-endian bytes. -/
def sha1Pad (msg : List Nat) : List Nat :=
  let zeros := (55 + 64 - msg.length % 64) % 64
  msg ++ [128] ++ List.replicate zeros 0 ++ beBytes 8 (8 * msg.length)

/-- SHA-1 of a byte list, as the 20-byte digest. -/
def sha1 (msg : List Nat) : List Nat :=
  let init : Nat × Nat × Nat × Nat × Nat :=
    (1732584193, 4023233417, 2562383102, 271733878, 3285377520)
  let (h0, h1, h2, h3, h4) := (toBlocks (sha1Pad msg)).foldl sha1Block init
  beBytes 4 h0 ++ beBytes 4 h1 ++ beBytes 4 h2 ++ beBytes 4 h3 ++ beBytes 4 h4

/-- HMAC-SHA1 (`hmac.new(key, msg, hashlib.sha1)`): block size 64,
keys longer than the block are first hashed. -/
def hmacSha1 (key msg : List Nat) : List Nat :=
  let k0 := if key.length > 64 then sha1 key else key
  let kp := k0 ++ List.replicate (64 - k0.length) 0
  sha1 ((kp.map (· ^^^ 92)) ++ sha1 ((kp.map (· ^^^ 54)) ++ msg))

/-- The standard base64 alphabet. -/
def b64Alphabet : List Char :=
  "ABCDEFGHIJKLMNOPQRSTUVWXYZabcdefghijklmnopqrstuvwxyz0123456789+/".data

/-- One base64 alphabet character. -/
def b64Char (n : Nat) : Char := b64Alphabet.getD n 'A'

/-- Standard base64 encoding with `=` padding (`base64.b64encode`). -/
def b64encode : List Nat → List Char
  | [] => []
  | [a] => [b64Char (a >>> 2), b64Char ((a &&& 3) <<< 4), '=', '=']
  | [a, b] => [b64Char (a >>> 2), b64Char (((a &&& 3) <<< 4) ||| (b >>> 4)),
               b64Char ((b &&& 15) <<< 2), '=']
  | a :: b :: c :: rest =>
      [b64Char (a >>> 2), b64Char (((a &&& 3) <<< 4) ||| (b >>> 4)),
       b64Char (((b &&& 15) <<< 2) ||| (c >>> 6)), b64Char (c &&& 63)] ++
      b64encode rest

/-- UTF-8 encoding of one character (`str.encode` is per code point). -/
def utf8Char (c : Char) : List Nat :=
  let n := c.toNat
  if n < 128 then [n]
  else if n < 2048 then [192 ||| (n >>> 6), 128 ||| (n &&& 63)]
  else if n < 65536 then
    [224 ||| (n >>> 12), 128 ||| ((n >>> 6) &&& 63), 128 ||| (n &&& 63)]
  else
    [240 ||| (n >>> 18), 128 ||| ((n >>> 12) &&& 63),
     128 ||| ((n >>> 6) &&& 63), 128 ||| (n &&& 63)]

/-- UTF-8 encoding of a string (`s.encode('utf-8')`). -/
def utf8Encode (s : List Char) : List Nat := (s.map utf8Char).flatten

/-! ## Python string helpers -/

/-- Python `str.replace(old, new)` for a single-character pattern. -/
def replaceChar (old : Char) (new : List Char) : List Char → List Char
  | [] => []
  | c :: cs => (if c = old then new else [c]) ++ replaceChar old new cs

/-- ASCII lower-casing of one character; agrees with Python `str.lower`
on the ASCII range. -/
def asciiLower (c : Char) : Char :=
  if 'A' ≤ c ∧ c ≤ 'Z' then Char.ofNat (c.toNat + 32) else c

/-- ASCII upper-casing of one character; agrees with Python `str.upper`
on the ASCII range. -/
def asciiUpper (c : Char) : Char :=
  if 'a' ≤ c ∧ c ≤ 'z' then Char.ofNat (c.toNat - 32) else c

/-- Python `str.lower()` (modelled on the ASCII range). -/
def pyLower (s : List Char) : List Char := s.map asciiLower

/-- Python `str.upper()` (modelled on the ASCII range). -/
def pyUpper (s : List Char) : List Char := s.map asciiUpper

/-- The characters Python `str.strip()` removes. -/
def pySpace (c : Char) : Bool :=
  c == ' ' || c == '\t' || c == '\n' || c == '\x0d' || c == '\x0b' ||
  c == '\x0c'

/-- Python `str.strip()`: drop leading and trailing whitespace. -/
def pyStrip (s : List Char) : List Char :=
  ((s.dropWhile pySpace).reverse.dropWhile pySpace).reverse

/-- Rendering of an `Optional[str]` inside a Python f-string:
`None` renders as the four characters `None`. -/
def getStr : Option (List Char) → List Char
  | none => "None".data
  | some s => s

/-- Python truthiness of an `Optional[str]`: `None` and the empty string
are falsy. -/
def truthyStr : Option (List Char) → Bool
  | none => false
  | some s => !s.isEmpty

/-! ## Wall-clock time and `checksum.get_timestamp` -/

/-- A wall-clock instant as `datetime.now()` exposes it (the fields
`strftime` can read). -/
structure DateTime where
  year : Nat
  month : Nat
  day : Nat
  hour : Nat
  minute : Nat
  second : Nat
deriving DecidableEq

/-- Decimal digits of `n`, zero-padded on the left to width `k`
(`strftime` zero-padded field). -/
def padNum (k n : Nat) : List Char :=
  let s := Nat.toDigits 10 n
  List.replicate (k - s.length) '0' ++ s

/-- `checksum.get_timestamp`: the current time formatted
`DD/MM/YYYY HH:00` — truncated to the hour (minutes and seconds do not
appear). -/
def get_timestamp (now : DateTime) : List Char :=
  padNum 2 now.day ++ "/".data ++ padNum 2 now.month ++ "/".data ++
  padNum 4 now.year ++ " ".data ++ padNum 2 now.hour ++ ":00".data

/-! ## Environment and the `checksum` class -/

/-- The environment variables the two modules read (`os.getenv`);
`none` models an unset variable. -/
structure Env where
  SECRET_KEY_MAIN : Option (List Char)
  SECRET_KEY_ALT : Option (List Char)
  SECRET_KEY_LONG : Option (List Char)
  SUPER_SECRET_CODE : Option (List Char)
  BASE_URL : Option (List Char)
  GOOGLE_AUTH_URL : Option (List Char)
  AUTHEN_KEY : Option (List Char)
deriving DecidableEq

/-- The state of a constructed `checksum` object: the four secret values
as read from the environment. -/
structure ChecksumObj where
  SECRET_KEY_MAIN : Option (List Char)
  SECRET_KEY_ALT : Option (List Char)
  SECRET_KEY_LONG : Option (List Char)
  SUPER_SECRET_CODE : Option (List Char)
deriving DecidableEq

/-- `checksum.__init__`: store the four secrets, then raise `ValueError`
unless all four are truthy (set and non-empty). -/
def checksumInit (env : Env) : Except (List Char) ChecksumObj :=
  let obj : ChecksumObj :=
    ⟨env.SECRET_KEY_MAIN, env.SECRET_KEY_ALT, env.SECRET_KEY_LONG,
     env.SUPER_SECRET_CODE⟩
  if truthyStr obj.SECRET_KEY_MAIN && truthyStr obj.SECRET_KEY_ALT &&
     truthyStr obj.SECRET_KEY_LONG && truthyStr obj.SUPER_SECRET_CODE then
    .ok obj
  else
    .error ("Missing required environment variables. Please ensure SECRET_KEY_MAIN, SECRET_KEY_ALT, SECRET_KEY_LONG and SUPER_SECRET_CODE are set in your .env file.").data

/-- `checksum.generate_hmac`: HMAC-SHA1 over the UTF-8 bytes of key and
message, base64-encoded. -/
def generate_hmac (key message : List Char) : List Char :=
  b64encode (hmacSha1 (utf8Encode key) (utf8Encode message))

/-- `checksum.url_encode_checksum`: `.replace('=', '%3d')` then
`.replace(' ', '+')`. -/
def url_encode_checksum (c : List Char) : List Char :=
  replaceChar ' ' "+".data (replaceChar '=' "%3d".data c)

/-- `checksum.checksum_k`: message `roll_number + SUPER_SECRET_CODE +
campus_code + timestamp`, keyed by `SECRET_KEY_MAIN`.  The wall clock
read by `get_timestamp()` is the explicit `now` argument. -/
def checksum_k (o : ChecksumObj) (now : DateTime)
    (roll_number campus_code : List Char) : List Char :=
  let timestamp := get_timestamp now
  let message := roll_number ++ getStr o.SUPER_SECRET_CODE ++ campus_code ++
    timestamp
  url_encode_checksum (generate_hmac (getStr o.SECRET_KEY_MAIN) message)

/-- `checksum.checksum_y`: message `username + SUPER_SECRET_CODE +
campus_code + timestamp`, keyed by `SECRET_KEY_ALT`. -/
def checksum_y (o : ChecksumObj) (now : DateTime)
    (username campus_code : List Char) : List Char :=
  let timestamp := get_timestamp now
  let message := username ++ getStr o.SUPER_SECRET_CODE ++ campus_code ++
    timestamp
  url_encode_checksum (generate_hmac (getStr o.SECRET_KEY_ALT) message)

/-- `checksum.checksum_a`: message `SECRET_KEY_LONG + parameter +
timestamp`, keyed by `SECRET_KEY_MAIN`. -/
def checksum_a (o : ChecksumObj) (now : DateTime)
    (parameter : List Char) : List Char :=
  let timestamp := get_timestamp now
  let message := getStr o.SECRET_KEY_LONG ++ parameter ++ timestamp
  url_encode_checksum (generate_hmac (getStr o.SECRET_KEY_MAIN) message)

/-! ## JSON values and the Python operations `api.py` applies to them

`response.json()` parses the body with Python's `json` library; the
parse itself is a library call, so a response carries its outcome as an
`Option Json` oracle.  `none` covers both an unparseable body and the
body `null` (in Python both leave `json_data = None`).  JSON numbers are
modelled as integers (the claims never need fractional values; the
truthiness and type-error behaviour used below is the same). -/

inductive Json where
  | null : Json
  | bool : Bool → Json
  | num : Int → Json
  | str : List Char → Json
  | arr : List Json → Json
  | obj : List (List Char × Json) → Json

/-- Python truthiness of a parsed JSON value. -/
def Json.truthy : Json → Bool
  | .null => false
  | .bool b => b
  | .num n => n != 0
  | .str s => !s.isEmpty
  | .arr xs => !xs.isEmpty
  | .obj fs => !fs.isEmpty

/-- Python dict lookup: JSON object keys are unique after parsing, with
the last occurrence winning, so look the key up from the right. -/
def lookupField (fs : List (List Char × Json)) (key : List Char) :
    Option Json :=
  (fs.reverse.find? fun p => p.1 == key).map Prod.snd

/-- `sub` occurs as a contiguous substring of `s` (Python `in` on
strings). -/
def strContains (s sub : List Char) : Bool :=
  (List.range (s.length + 1)).any fun i => (s.drop i).take sub.length == sub

/-- Python `key in json_data`.  On a dict it is key membership, on a
list element equality, on a string a substring test; on numbers and
booleans it raises `TypeError`. -/
def pyContains (j : Json) (key : List Char) : Except (List Char) Bool :=
  match j with
  | .obj fs => .ok (fs.any fun p => p.1 == key)
  | .arr xs => .ok (xs.any fun x => match x with
      | .str s => s == key
      | _ => false)
  | .str s => .ok (strContains s key)
  | .null => .error "argument of type NoneType is not iterable".data
  | .bool _ => .error "argument of type bool is not iterable".data
  | .num _ => .error "argument of type int is not iterable".data

/-- Python `json_data[key]` for a string key.  Defined on dicts; on
lists and strings it raises `TypeError`, on a missing dict key
`KeyError`. -/
def pyIndex (j : Json) (key : List Char) : Except (List Char) Json :=
  match j with
  | .obj fs =>
      match lookupField fs key with
      | some v => .ok v
      | none => .error ("KeyError: ".data ++ key)
  | .arr _ => .error "list indices must be integers or slices, not str".data
  | .str _ => .error "string indices must be integers".data
  | .null => .error "NoneType object is not subscriptable".data
  | .bool _ => .error "bool object is not subscriptable".data
  | .num _ => .error "int object is not subscriptable".data

/-- Python `==` between a parsed JSON value and the string literal
`'200'`: true exactly when the value is that string (an int or anything
else compares unequal to a str). -/
def pyEqStr (v : Json) (s : List Char) : Bool :=
  match v with
  | .str t => t == s
  | _ => false

/-! ## `API._make_request` -/

/-- One HTTP response as `requests` exposes it to `_make_request`:
the status code, the body text, and the outcome of `response.json()`
(`none` when parsing raises or yields `None`). -/
structure HttpResp where
  status_code : Nat
  text : List Char
  json : Option Json

/-- The normalized dictionary `_make_request` returns.  `status_code`
and `data` are always present (`none` = the Python value `None`);
`raw_response` and `error` model field *presence*: `none` means the key
is absent from the returned dict. -/
structure Envelope where
  success : Bool
  status_code : Option Nat
  data : Option Json
  raw_response : Option (List Char)
  error : Option (List Char)

/-- The envelope built at the end of the `try` block. -/
def okEnvelope (success : Bool) (resp : HttpResp) : Envelope :=
  ⟨success, some resp.status_code, resp.json, some resp.text, none⟩

/-- The envelope built by the blanket `except` handler from the caught
exception's message. -/
def errEnvelope (msg : List Char) : Envelope :=
  ⟨false, none, none, none, some msg⟩

/-- The body of `_make_request`'s `try` block.  The HTTP call itself is
the `transport` argument: the outcome of `session.get`/`session.post`
(`.error` = the library raised; query parameters, body and the
`use_json` toggle do not influence the normalization and are carried by
the request builders below).  `.error` results of this definition are
exceptions propagating to the blanket handler.  The update
`is_success = is_success and json_data['code'] == '200'` short-circuits:
when the status check already failed, `json_data['code']` is never
evaluated (so its potential `TypeError` is only reachable at status
200). -/
def makeRequestTry (method : List Char)
    (transport : Except (List Char) HttpResp) :
    Except (List Char) Envelope :=
  if pyUpper method == "GET".data || pyUpper method == "POST".data then
    transport.bind fun resp =>
      match resp.json with
      | some j =>
          if j.truthy then
            (pyContains j "code".data).bind fun hasCode =>
              if hasCode then
                if resp.status_code == 200 then
                  (pyIndex j "code".data).bind fun v =>
                    .ok (okEnvelope (pyEqStr v "200".data) resp)
                else .ok (okEnvelope false resp)
              else .ok (okEnvelope (resp.status_code == 200) resp)
          else .ok (okEnvelope (resp.status_code == 200) resp)
      | none => .ok (okEnvelope (resp.status_code == 200) resp)
  else .error ("Unsupported HTTP method: ".data ++ method)

/-- `API._make_request`: run the `try` block; any exception is caught
and converted to the error envelope. -/
def make_request (method : List Char)
    (transport : Except (List Char) HttpResp) : Envelope :=
  match makeRequestTry method transport with
  | .ok e => e
  | .error msg => errEnvelope msg

/-! ## `API.__init__` and the request builders the claims examine -/

/-- The state of a constructed `API` object. -/
structure APIObj where
  AUTHEN_KEY : Option (List Char)
  cs : ChecksumObj
  BASE_URL : Option (List Char)
  GOOGLE_AUTH_URL : Option (List Char)
deriving DecidableEq

/-- `API.__init__`: raise `ValueError` when `AUTHEN_KEY` is unset or
empty, then construct the `checksum` object (whose own validation may
raise); `BASE_URL` and `GOOGLE_AUTH_URL` are read but never checked. -/
def apiInit (env : Env) : Except (List Char) APIObj :=
  if !truthyStr env.AUTHEN_KEY then
    .error ("Missing required environment variable AUTHEN_KEY. Please set it in your .env file.").data
  else
    (checksumInit env).map fun c =>
      ⟨env.AUTHEN_KEY, c, env.BASE_URL, env.GOOGLE_AUTH_URL⟩

/-- One outgoing HTTP request as a Client method hands it to
`_make_request`: the method, the URL, and the query parameters in
order. -/
structure Request where
  method : List Char
  url : List Char
  params : List (List Char × List Char)
deriving DecidableEq

/-- `API.get_week_by_date`: a variant-A checksum over the timestamp is
computed into a local and never attached; the transmitted parameters
are only `date`. -/
def get_week_by_date (api : APIObj) (now : DateTime)
    (timestamp : List Char) : Request :=
  let _checksum := checksum_a api.cs now timestamp
  { method := "GET".data
    url := getStr api.BASE_URL ++ "/GetWeekByDate".data
    params := [("date".data, timestamp)] }

/-- `API.get_required_survey`: the username is lower-cased and stripped
before both signing (variant Y with an empty campus code) and
transmission; the URL is built from `GOOGLE_AUTH_URL`. -/
def get_required_survey (api : APIObj) (now : DateTime)
    (username : List Char) : Request :=
  let cs := checksum_y api.cs now (pyStrip (pyLower username)) []
  { method := "GET".data
    url := getStr api.GOOGLE_AUTH_URL ++ "/GetRequiredSurvey".data
    params := [("username".data, pyStrip (pyLower username)),
               ("checksum".data, cs)] }

/-! ## Spec-side definitions (for refinement claims)

These follow the specification's words, to be compared against the
code-derived definitions above. -/

/-- Spec-side success condition of C2: HTTP status 200 and, in case the
parsed JSON body contains a `code` field, that field equals the *string*
`"200"`. -/
def specSuccess (resp : HttpResp) : Bool :=
  resp.status_code == 200 &&
    match resp.json with
    | some (.obj fs) =>
        match lookupField fs "code".data with
        | some (.str t) => t == "200".data
        | some _ => false
        | none => true
    | _ => true

/-- `Except.isOk` as a Bool (for stating construction success). -/
def isOkB {α : Type} : Except (List Char) α → Bool
  | .ok _ => true
  | .error _ => false

/-! ## Sanity checks of the byte-level primitives (standard test vectors) -/

example : sha1 (utf8Encode "abc".data) =
    [169, 153, 62, 54, 71, 6, 129, 106, 186, 62, 37, 113, 120, 80, 194, 108,
     156, 208, 216, 157] := by decide

example : b64encode [77, 97, 110] = "TWFu".data := by decide

/-! ## Helper lemmas -/

/-- `replaceChar` distributes over append. -/
theorem replaceChar_append (o : Char) (n a b : List Char) :
    replaceChar o n (a ++ b) = replaceChar o n a ++ replaceChar o n b := by
  induction a with
  | nil => rfl
  | cons c cs ih => simp [replaceChar, ih]

/-- A single step of `url_encode_checksum`. -/
theorem url_encode_checksum_cons (c : Char) (cs : List Char) :
    url_encode_checksum (c :: cs) =
      (if c = '=' then "%3d".data else if c = ' ' then "+".data else [c]) ++
      url_encode_checksum cs := by
  by_cases h1 : c = '='
  · subst h1
    simp [url_encode_checksum, replaceChar, replaceChar_append]
  · by_cases h2 : c = ' '
    · subst h2
      simp [url_encode_checksum, replaceChar, replaceChar_append]
    · simp [url_encode_checksum, replaceChar, replaceChar_append, h1, h2]

/-- If no key of `fs` matches, the lookup is empty. -/
theorem lookupField_eq_none {fs : List (List Char × Json)} {key : List Char}
    (h : fs.any (fun p => p.1 == key) = false) :
    lookupField fs key = none := by
  have hall := List.any_eq_false.mp h
  have hfind : fs.reverse.find? (fun p => p.1 == key) = none :=
    List.find?_eq_none.mpr fun p hp => hall p (List.mem_reverse.mp hp)
  simp [lookupField, hfind]

/-- If some key of `fs` matches, the lookup yields a value. -/
theorem lookupField_isSome {fs : List (List Char × Json)} {key : List Char}
    (h : fs.any (fun p => p.1 == key) = true) :
    ∃ v, lookupField fs key = some v := by
  simp only [List.any_eq_true] at h
  obtain ⟨p, hp, hk⟩ := h
  have hsome : (fs.reverse.find? (fun p => p.1 == key)).isSome := by
    rw [List.find?_isSome]
    exact ⟨p, List.mem_reverse.mpr hp, hk⟩
  obtain ⟨q, hq⟩ := Option.isSome_iff_exists.mp hsome
  exact ⟨q.2, by simp [lookupField, hq]⟩

/-- Every `.ok` result of the `try` block is a success-path envelope for
the transported response. -/
theorem makeRequestTry_ok_shape (m : List Char)
    (t : Except (List Char) HttpResp) (e : Envelope)
    (h : makeRequestTry m t = .ok e) :
    ∃ resp b, t = .ok resp ∧ e = okEnvelope b resp := by
  unfold makeRequestTry at h
  split at h
  · cases t with
    | error msg => simp [Except.bind] at h
    | ok resp =>
        refine ⟨resp, ?_⟩
        simp only [Except.bind] at h
        split at h
        · -- resp.json = some j
          split at h
          · -- j truthy: case on pyContains
            split at h
            · -- pyContains raised
              simp at h
            · -- pyContains returned hasCode
              split at h
              · -- hasCode: was the status check already true?
                split at h
                · -- status 200: case on pyIndex
                  split at h
                  · simp at h
                  · exact ⟨_, rfl, (Except.ok.inj h).symm⟩
                · exact ⟨_, rfl, (Except.ok.inj h).symm⟩
              · exact ⟨_, rfl, (Except.ok.inj h).symm⟩
          · exact ⟨_, rfl, (Except.ok.inj h).symm⟩
        · exact ⟨_, rfl, (Except.ok.inj h).symm⟩
  · simp at h

/-! ## Claim theorems -/

/-- C1: for every choice of the four secrets and every input, each
signing variant produces exactly the string obtained by concatenating
the slots of its message template in order (variant K: identifier,
shared-code, campus-code, timestamp-slot keyed by `SECRET_KEY_MAIN`;
variant Y: the same template with the username as identifier keyed by
`SECRET_KEY_ALT`; variant A: `SECRET_KEY_LONG`, parameter,
timestamp-slot keyed by `SECRET_KEY_MAIN`), computing HMAC-SHA1 over
that message, base64-encoding the raw digest, and applying the escape
step; empty strings are permitted in unused slots (the inputs range over
all strings, including the empty one). -/
theorem c1_signing_variants_compose (o : ChecksumObj) (now : DateTime)
    (identifier campus_code username parameter : List Char) :
    checksum_k o now identifier campus_code =
      url_encode_checksum (b64encode (hmacSha1
        (utf8Encode (getStr o.SECRET_KEY_MAIN))
        (utf8Encode (identifier ++ getStr o.SUPER_SECRET_CODE ++
          campus_code ++ get_timestamp now)))) ∧
    checksum_y o now username campus_code =
      url_encode_checksum (b64encode (hmacSha1
        (utf8Encode (getStr o.SECRET_KEY_ALT))
        (utf8Encode (username ++ getStr o.SUPER_SECRET_CODE ++
          campus_code ++ get_timestamp now)))) ∧
    checksum_a o now parameter =
      url_encode_checksum (b64encode (hmacSha1
        (utf8Encode (getStr o.SECRET_KEY_MAIN))
        (utf8Encode (getStr o.SECRET_KEY_LONG ++ parameter ++
          get_timestamp now)))) :=
  ⟨rfl, rfl, rfl⟩

/-- C9: the escape step turns every `=` into the three characters `%3d`
and every space into `+`, leaving all other characters unchanged
(character-wise expansion), and is the identity — hence idempotent — on
every input containing neither `=` nor a space. -/
theorem c9_escape_characterization (s : List Char) :
    url_encode_checksum s =
      s.foldr (fun c acc =>
        (if c = '=' then "%3d".data
         else if c = ' ' then "+".data else [c]) ++ acc) [] ∧
    ('=' ∉ s → ' ' ∉ s → url_encode_checksum s = s) := by
  induction s with
  | nil => exact ⟨rfl, fun _ _ => rfl⟩
  | cons c cs ih =>
      refine ⟨?_, ?_⟩
      · rw [url_encode_checksum_cons, ih.1]
        rfl
      · intro h1 h2
        rw [url_encode_checksum_cons]
        have hc1 : c ≠ '=' := fun hc => h1 (hc ▸ List.mem_cons_self c cs)
        have hc2 : c ≠ ' ' := fun hc => h2 (hc ▸ List.mem_cons_self c cs)
        rw [if_neg hc1, if_neg hc2,
          ih.2 (fun hm => h1 (List.mem_cons_of_mem c hm))
            (fun hm => h2 (List.mem_cons_of_mem c hm))]
        rfl

/-- C9 witness: on an input with neither `=` nor space the escape step
is the identity, and the expansion also holds there. -/
theorem c9_escape_witness :
    ('=' ∉ "abc".data ∧ ' ' ∉ "abc".data) ∧
    url_encode_checksum "abc".data = "abc".data :=
  ⟨by decide,
   (c9_escape_characterization "abc".data).2 (by decide) (by decide)⟩

/-- C5: for every timestamp argument (and any configuration and wall
clock), the request transmitted by `get_week_by_date` carries exactly
the single `date` parameter — no `checksum` parameter — even though a
variant-A checksum over the date value is computed into a discarded
local. -/
theorem c5_week_by_date_unsigned (api : APIObj) (now : DateTime)
    (timestamp : List Char) :
    get_week_by_date api now timestamp =
      ⟨"GET".data, getStr api.BASE_URL ++ "/GetWeekByDate".data,
       [("date".data, timestamp)]⟩ ∧
    ((get_week_by_date api now timestamp).params.all
      fun p => p.1 != "checksum".data) = true :=
  ⟨rfl, rfl⟩

/-- C6: for every username string, `get_required_survey` lower-cases and
strips the username and uses that normalized form both inside the
variant-Y signed message and as the transmitted `username` parameter,
against the distinct survey base endpoint; in particular
`"  USER@Example.com "` normalizes to `"user@example.com"`. -/
theorem c6_survey_normalized_username (api : APIObj) (now : DateTime)
    (username : List Char) :
    get_required_survey api now username =
      ⟨"GET".data, getStr api.GOOGLE_AUTH_URL ++ "/GetRequiredSurvey".data,
       [("username".data, pyStrip (pyLower username)),
        ("checksum".data, checksum_y api.cs now (pyStrip (pyLower username)) [])]⟩ ∧
    checksum_y api.cs now (pyStrip (pyLower username)) [] =
      url_encode_checksum (generate_hmac (getStr api.cs.SECRET_KEY_ALT)
        (pyStrip (pyLower username) ++ getStr api.cs.SUPER_SECRET_CODE ++
         [] ++ get_timestamp now)) ∧
    pyStrip (pyLower "  USER@Example.com ".data) = "user@example.com".data :=
  ⟨rfl, rfl, by decide⟩

/-- C7: signing is deterministic and hour-windowed.  The variant-K
output is a function of the secrets, the inputs and the timestamp-slot
alone — equal slots give byte-identical signatures — and any two
wall-clock instants in the same hour (equal year, month, day and hour,
arbitrary minutes and seconds) produce the same timestamp-slot and hence
the same signature on identical inputs. -/
theorem c7_hour_windowed_determinism (o : ChecksumObj) (t1 t2 : DateTime)
    (roll campus : List Char) :
    (get_timestamp t1 = get_timestamp t2 →
      checksum_k o t1 roll campus = checksum_k o t2 roll campus) ∧
    (t1.year = t2.year → t1.month = t2.month → t1.day = t2.day →
      t1.hour = t2.hour →
      get_timestamp t1 = get_timestamp t2 ∧
      checksum_k o t1 roll campus = checksum_k o t2 roll campus) := by
  have hk : ∀ s1 s2 : DateTime, get_timestamp s1 = get_timestamp s2 →
      checksum_k o s1 roll campus = checksum_k o s2 roll campus := by
    intro s1 s2 h
    simp only [checksum_k, h]
  refine ⟨hk t1 t2, fun hy hm hd hh => ?_⟩
  have hts : get_timestamp t1 = get_timestamp t2 := by
    simp only [get_timestamp, hy, hm, hd, hh]
  exact ⟨hts, hk t1 t2 hts⟩

/-- C7 witness: two instants 32 minutes apart inside the same hour give
the same timestamp-slot and the same variant-K signature. -/
theorem c7_hour_windowed_determinism_witness :
    get_timestamp ⟨2026, 10, 12, 9, 15, 0⟩ =
      get_timestamp ⟨2026, 10, 12, 9, 47, 30⟩ ∧
    checksum_k ⟨some "km".data, some "ka".data, some "kl".data, some "sc".data⟩
        ⟨2026, 10, 12, 9, 15, 0⟩ "R1".data "C1".data =
      checksum_k ⟨some "km".data, some "ka".data, some "kl".data, some "sc".data⟩
        ⟨2026, 10, 12, 9, 47, 30⟩ "R1".data "C1".data :=
  (c7_hour_windowed_determinism _ _ _ _ _).2 rfl rfl rfl rfl

/-- C4 counterexample: with all four secrets and the authentication key
set but the base endpoint URL unset, `API` construction succeeds — it is
not fatal, refuting the claim that a missing base URL is a
construction-time error. -/
theorem c4_counterexample_missing_base_url :
    apiInit ⟨some "m".data, some "a".data, some "l".data, some "s".data,
             none, some "g".data, some "k".data⟩ =
      .ok ⟨some "k".data,
           ⟨some "m".data, some "a".data, some "l".data, some "s".data⟩,
           none, some "g".data⟩ :=
  rfl

/-- C4 (amended): construction fails fast on configuration errors before
any network call or signature computation — `checksum` construction
raises exactly when one of the four secret values is absent or empty,
and `API` construction raises exactly when the authentication key is
absent or empty or a secret is absent or empty; the base endpoint URL is
read but never validated (it does not influence construction success). -/
theorem c4_construction_fail_fast (env : Env) :
    isOkB (checksumInit env) =
      (truthyStr env.SECRET_KEY_MAIN && truthyStr env.SECRET_KEY_ALT &&
       truthyStr env.SECRET_KEY_LONG && truthyStr env.SUPER_SECRET_CODE) ∧
    isOkB (apiInit env) =
      (truthyStr env.AUTHEN_KEY &&
       (truthyStr env.SECRET_KEY_MAIN && truthyStr env.SECRET_KEY_ALT &&
        truthyStr env.SECRET_KEY_LONG && truthyStr env.SUPER_SECRET_CODE)) := by
  constructor
  · cases h : (truthyStr env.SECRET_KEY_MAIN && truthyStr env.SECRET_KEY_ALT &&
      truthyStr env.SECRET_KEY_LONG && truthyStr env.SUPER_SECRET_CODE) <;>
      simp [checksumInit, isOkB, h]
  · cases ha : truthyStr env.AUTHEN_KEY
    · simp [apiInit, isOkB, ha]
    · cases h : (truthyStr env.SECRET_KEY_MAIN && truthyStr env.SECRET_KEY_ALT &&
        truthyStr env.SECRET_KEY_LONG && truthyStr env.SUPER_SECRET_CODE) <;>
        simp [apiInit, checksumInit, isOkB, ha, h, Except.map]

/-- C2: for every execution of `_make_request` in which the `try` block
completes without an exception (the HTTP call returned a response and
its handling raised nothing), the envelope's `success` field is true
exactly when the HTTP status is 200 and, in case the parsed JSON body
contains a `code` field, that field equals the string `"200"` (an
integer `200` compares unequal); `specSuccess` is that spec-side
condition. -/
theorem c2_success_classification (method : List Char) (resp : HttpResp)
    (e : Envelope) (h : makeRequestTry method (.ok resp) = .ok e) :
    e.success = specSuccess resp := by
  unfold makeRequestTry at h
  split at h
  · simp only [Except.bind] at h
    split at h
    · -- resp.json = some j
      rename_i j hj
      split at h
      · -- j truthy
        rename_i htr
        split at h
        · -- pyContains raised
          simp at h
        · -- pyContains returned hasCode
          rename_i hasCode hc
          split at h
          · -- hasCode = true: the status check short-circuits the update
            split at h
            · -- status 200: the code field is read
              rename_i hst
              split at h
              · -- pyIndex raised
                simp at h
              · -- pyIndex returned v
                rename_i v hi
                cases Except.ok.inj h
                cases j with
                | obj fs =>
                    simp only [pyIndex] at hi
                    split at hi
                    · rename_i w hl
                      cases Except.ok.inj hi
                      simp only [okEnvelope, specSuccess, hj, hl, hst]
                      cases v <;> simp [pyEqStr]
                    · simp at hi
                | null => simp [pyIndex] at hi
                | bool b => simp [pyIndex] at hi
                | num n => simp [pyIndex] at hi
                | str s => simp [pyIndex] at hi
                | arr xs => simp [pyIndex] at hi
            · -- status not 200: `and` short-circuits to False
              rename_i hst
              cases Except.ok.inj h
              simp only [Bool.not_eq_true] at hst
              simp only [okEnvelope, specSuccess, hst, Bool.false_and]
          · -- hasCode = false
            rename_i hcode
            cases Except.ok.inj h
            simp only [Bool.not_eq_true] at hcode
            subst hcode
            cases j with
            | obj fs =>
                simp only [pyContains] at hc
                have hany := Except.ok.inj hc
                simp [okEnvelope, specSuccess, hj, lookupField_eq_none hany]
            | str s => simp [okEnvelope, specSuccess, hj]
            | arr xs => simp [okEnvelope, specSuccess, hj]
            | null => simp [pyContains] at hc
            | bool b => simp [pyContains] at hc
            | num n => simp [pyContains] at hc
      · -- j falsy
        rename_i htr
        cases Except.ok.inj h
        cases j with
        | obj fs =>
            have hnil : fs = [] := by
              cases fs with
              | nil => rfl
              | cons p ps => simp [Json.truthy] at htr
            subst hnil
            simp [okEnvelope, specSuccess, hj, lookupField]
        | null => simp [okEnvelope, specSuccess, hj]
        | bool b => simp [okEnvelope, specSuccess, hj]
        | num n => simp [okEnvelope, specSuccess, hj]
        | str s => simp [okEnvelope, specSuccess, hj]
        | arr xs => simp [okEnvelope, specSuccess, hj]
    · -- resp.json = none
      rename_i hj
      cases Except.ok.inj h
      simp [okEnvelope, specSuccess, hj]
  · simp at h

/-- C2 witness: a mocked HTTP 200 response whose body is the JSON object
with field `code = "400"` completes the `try` block with an envelope
whose `success` is `false` while `status_code` is 200, and that envelope
satisfies the classification. -/
theorem c2_success_classification_witness :
    makeRequestTry "GET".data
      (.ok ⟨200, "\x7b\"code\": \"400\"\x7d".data,
            some (.obj [("code".data, .str "400".data)])⟩) =
      .ok ⟨false, some 200, some (.obj [("code".data, .str "400".data)]),
           some "\x7b\"code\": \"400\"\x7d".data, none⟩ ∧
    (⟨false, some 200, some (.obj [("code".data, .str "400".data)]),
      some "\x7b\"code\": \"400\"\x7d".data, none⟩ : Envelope).success =
      specSuccess ⟨200, "\x7b\"code\": \"400\"\x7d".data,
                   some (.obj [("code".data, .str "400".data)])⟩ :=
  ⟨rfl, c2_success_classification "GET".data _ _ rfl⟩

/-- C3 counterexample: the claim says every envelope produced from a
non-exceptional response has a `raw_response` field and no `error`
field.  A mocked HTTP 200 response with the JSON body `5` (the transport
raised nothing) makes the `code`-membership test itself raise
`TypeError`, which the blanket handler converts to the transport-failure
shape: `error` present, no `raw_response`, `status_code` null. -/
theorem c3_counterexample_numeric_body :
    make_request "GET".data (.ok ⟨200, "5".data, some (.num 5)⟩) =
      ⟨false, none, none, none,
       some "argument of type int is not iterable".data⟩ :=
  rfl

/-- C3 (amended): any transport exception is caught and converted to an
envelope with `success=false`, `status_code=null`, `data=null`, a
populated `error` string, and no `raw_response` field; every envelope
from a response whose handling completes without an exception has a
`raw_response` field and no `error` field (the handling itself can raise
on exotic non-object JSON bodies, and is then reported in the
transport-failure shape); in every case exactly one of `error` and
`raw_response` is present, so the two shapes are distinguished by field
presence alone. -/
theorem c3_error_envelope_discrimination (method msg : List Char)
    (t : Except (List Char) HttpResp) (resp : HttpResp) (e : Envelope)
    (hmeth : (pyUpper method == "GET".data ||
      pyUpper method == "POST".data) = true)
    (hok : makeRequestTry method (.ok resp) = .ok e) :
    make_request method (.error msg) = ⟨false, none, none, none, some msg⟩ ∧
    e.raw_response = some resp.text ∧ e.error = none ∧
    (make_request method t).error.isSome =
      (make_request method t).raw_response.isNone := by
  obtain ⟨r, b, ht, he⟩ := makeRequestTry_ok_shape _ _ _ hok
  cases Except.ok.inj ht
  refine ⟨?_, ?_, ?_, ?_⟩
  · simp [make_request, makeRequestTry, Except.bind, hmeth, errEnvelope]
  · simp [he, okEnvelope]
  · simp [he, okEnvelope]
  · cases hm : makeRequestTry method t with
    | ok e' =>
        obtain ⟨r', b', ht', he'⟩ := makeRequestTry_ok_shape _ _ _ hm
        simp [make_request, hm, he', okEnvelope]
    | error m => simp [make_request, hm, errEnvelope]

/-- C3 witness: a concrete transport failure (`boom`) and a concrete
completing response instantiate the amended claim. -/
theorem c3_error_envelope_discrimination_witness :
    ((pyUpper "GET".data == "GET".data ||
      pyUpper "GET".data == "POST".data) = true) ∧
    (make_request "GET".data (.error "boom".data) =
      ⟨false, none, none, none, some "boom".data⟩ ∧
     (⟨true, some 200, none, some "ok".data, none⟩ : Envelope).raw_response =
       some (⟨200, "ok".data, none⟩ : HttpResp).text ∧
     (⟨true, some 200, none, some "ok".data, none⟩ : Envelope).error = none ∧
     (make_request "GET".data (.ok ⟨200, "ok".data, none⟩)).error.isSome =
       (make_request "GET".data
         (.ok ⟨200, "ok".data, none⟩)).raw_response.isNone) :=
  ⟨rfl, c3_error_envelope_discrimination _ _ _ _ _ rfl rfl⟩

/-- C8: for every response whose body cannot be parsed as JSON
(`response.json()` yields nothing), the envelope has `data=null`, but
the parse failure does not itself cause failure: `success` is still
determined by the status alone, and the raw text is preserved in
`raw_response`. -/
theorem c8_unparseable_body (method : List Char) (resp : HttpResp)
    (hmeth : (pyUpper method == "GET".data ||
      pyUpper method == "POST".data) = true)
    (hjson : resp.json = none) :
    make_request method (.ok resp) =
      ⟨resp.status_code == 200, some resp.status_code, none,
       some resp.text, none⟩ := by
  simp [make_request, makeRequestTry, Except.bind, hmeth, hjson, okEnvelope]

/-- C8 witness: a mocked HTTP 200 response with an unparseable body
still yields `success=true`, `data=null`, and the raw text preserved. -/
theorem c8_unparseable_body_witness :
    ((pyUpper "GET".data == "GET".data ||
      pyUpper "GET".data == "POST".data) = true) ∧
    make_request "GET".data (.ok ⟨200, "not json".data, none⟩) =
      ⟨true, some 200, none, some "not json".data, none⟩ :=
  ⟨rfl, c8_unparseable_body _ _ rfl rfl⟩

/-- C10 (implicit): for every method other than GET or POST
(case-insensitively), `_make_request` performs no HTTP call — its result
does not depend on the transport — yet returns normally: the internally
raised unsupported-method error is caught by the same blanket handler as
transport failures, yielding `success=false`, `status_code=null`,
`data=null` and an error string, byte-identical to a transport-failure
envelope. -/
theorem c10_unsupported_method (method : List Char)
    (t t2 : Except (List Char) HttpResp)
    (hmeth : (pyUpper method == "GET".data ||
      pyUpper method == "POST".data) = false) :
    make_request method t =
      ⟨false, none, none, none,
       some ("Unsupported HTTP method: ".data ++ method)⟩ ∧
    make_request method t = make_request method t2 ∧
    make_request method t =
      make_request "GET".data
        (.error ("Unsupported HTTP method: ".data ++ method)) := by
  have key : ∀ s : Except (List Char) HttpResp,
      make_request method s =
        errEnvelope ("Unsupported HTTP method: ".data ++ method) := by
    intro s
    simp [make_request, makeRequestTry, hmeth]
  exact ⟨key t, (key t).trans (key t2).symm,
    (key t).trans (rfl :
      make_request "GET".data
        (.error ("Unsupported HTTP method: ".data ++ method)) =
      errEnvelope ("Unsupported HTTP method: ".data ++ method)).symm⟩

/-- C10 witness: the method `PATCH` with two different transports (one
successful response, one failure) produces the same transport-failure
shaped envelope. -/
theorem c10_unsupported_method_witness :
    ((pyUpper "PATCH".data == "GET".data ||
      pyUpper "PATCH".data == "POST".data) = false) ∧
    (make_request "PATCH".data (.ok ⟨200, "x".data, none⟩) =
      ⟨false, none, none, none,
       some ("Unsupported HTTP method: ".data ++ "PATCH".data)⟩ ∧
     make_request "PATCH".data (.ok ⟨200, "x".data, none⟩) =
       make_request "PATCH".data (.error "boom".data) ∧
     make_request "PATCH".data (.ok ⟨200, "x".data, none⟩) =
       make_request "GET".data
         (.error ("Unsupported HTTP method: ".data ++ "PATCH".data))) :=
  ⟨rfl, c10_unsupported_method _ _ _ rfl⟩

end StudentAPI
